import Mathlib

/-!
Verification model of the "AI Research & Chart Generator" Streamlit app
(`app.py`).  The Python code is shallowly embedded: JSON values become an
inductive type, HTTP calls become oracle functions `String → FetchResult`
(resp. `ChatRequest → FetchResult`), Python exceptions become `Except`,
and the Streamlit button handler becomes a pure state-transition function
`runSubmit` on the session state.
-/

/-- Python/JSON value domain: the values `response.json()` can produce
(`None`, booleans, numbers, strings, lists, dicts). -/
inductive Json where
  | null
  | bool (b : Bool)
  | num (n : Int)
  | str (s : String)
  | arr (xs : List Json)
  | obj (fields : List (String × Json))

/-- Python truthiness of a JSON value (`if x:`). -/
def Json.truthy : Json → Bool
  | .null => false
  | .bool b => b
  | .num n => n != 0
  | .str s => s != ""
  | .arr xs => !xs.isEmpty
  | .obj fields => !fields.isEmpty

mutual

/-- Python `repr()` of a JSON value (used by `str()` on lists/dicts). -/
def Json.pyRepr : Json → String
  | .null => "None"
  | .bool b => if b then "True" else "False"
  | .num n => toString n
  | .str s => "'" ++ s ++ "'"
  | .arr xs => "[" ++ String.intercalate ", " (Json.pyReprList xs) ++ "]"
  | .obj fields => "\x7b" ++ String.intercalate ", " (Json.pyReprFields fields) ++ "\x7d"

/-- `repr()` of each element of a JSON list. -/
def Json.pyReprList : List Json → List String
  | [] => []
  | j :: js => Json.pyRepr j :: Json.pyReprList js

/-- `repr()` of each key/value pair of a JSON dict. -/
def Json.pyReprFields : List (String × Json) → List String
  | [] => []
  | (k, v) :: fs => ("'" ++ k ++ "': " ++ Json.pyRepr v) :: Json.pyReprFields fs

end

/-- Python `str()` of a JSON value, as used by f-string interpolation. -/
def Json.pyStr : Json → String
  | .str s => s
  | j => j.pyRepr

/-- Python type name of a JSON value, for exception messages. -/
def Json.pyTypeName : Json → String
  | .null => "NoneType"
  | .bool _ => "bool"
  | .num _ => "int"
  | .str _ => "str"
  | .arr _ => "list"
  | .obj _ => "dict"

/-- `needle` occurs as a contiguous sublist of `hay`. -/
def listContainsSub (hay needle : List Char) : Bool :=
  hay.tails.any (fun t => needle.isPrefixOf t)

/-- Python substring test `needle in hay`. -/
def strContains (hay needle : String) : Bool :=
  listContainsSub hay.data needle.data

/-- An HTTP response: status code plus the JSON parse of its body
(`none` when `response.json()` would raise). -/
structure HttpResponse where
  status : Nat
  body : Option Json

/-- Result of one outbound HTTP call: a response, or a raised
`requests` exception (transport error / timeout) carrying `str(e)`. -/
inductive FetchResult where
  | ok (response : HttpResponse)
  | exn (msg : String)

/-- Python `key in j` membership test; raises (`.error`)
on non-iterable values. -/
def pyContains (j : Json) (key : String) : Except String Bool :=
  match j with
  | .obj fields => .ok (List.lookup key fields).isSome
  | .arr xs => .ok (xs.any (fun x => match x with | .str s => s == key | _ => false))
  | .str s => .ok (strContains s key)
  | j => .error ("argument of type '" ++ j.pyTypeName ++ "' is not iterable")

/-- Python `j[key]` subscript with a string key; the `.error` message
models `str(e)` of the raised KeyError/TypeError. -/
def pySubscriptStr (j : Json) (key : String) : Except String Json :=
  match j with
  | .obj fields =>
    match List.lookup key fields with
    | some v => .ok v
    | none => .error ("'" ++ key ++ "'")
  | .arr _ => .error "list indices must be integers or slices, not str"
  | .str _ => .error "string indices must be integers"
  | j => .error ("'" ++ j.pyTypeName ++ "' object is not subscriptable")

/-- Python `j[i]` subscript with an integer index. -/
def pySubscriptIdx (j : Json) (i : Nat) : Except String Json :=
  match j with
  | .arr xs =>
    match xs.get? i with
    | some v => .ok v
    | none => .error "list index out of range"
  | .str s =>
    match s.data.get? i with
    | some c => .ok (.str (String.mk [c]))
    | none => .error "string index out of range"
  | .obj _ => .error (toString i)
  | j => .error ("'" ++ j.pyTypeName ++ "' object is not subscriptable")

/-- Python `j[:3]` slice, as applied to `data['RelatedTopics']`. -/
def relatedSlice (j : Json) : Except String (List Json) :=
  match j with
  | .arr xs => .ok (xs.take 3)
  | .str s => .ok ((s.data.take 3).map (fun c => Json.str (String.mk [c])))
  | .obj _ => .error "unhashable type: 'slice'"
  | j => .error ("'" ++ j.pyTypeName ++ "' object is not subscriptable")

/-- Loop body of the RelatedTopics extraction: a topic contributes
`"Related: " ++ text` exactly when it is a dict with a `Text` key. -/
def relatedOf (t : Json) : Option String :=
  match t with
  | .obj fields =>
    match List.lookup "Text" fields with
    | some v => some ("Related: " ++ v.pyStr)
    | none => none
  | _ => none

/-- The search URL built by `search_web` (line 53): the query is
interpolated into the f-string verbatim, with no URL-encoding. -/
def search_url (query : String) : String :=
  "https://api.duckduckgo.com/?q=" ++ query ++ "&format=json&no_redirect=1"

/-- Body of `search_web`'s HTTP-200 branch (lines 58-70): abstract and
related-topic extraction; `.error` models a raised exception inside
the `try` block. -/
def search200 (query : String) (data : Json) : Except String String := do
  let hasAbs ← pyContains data "AbstractText"
  let abs ←
    if hasAbs then do
      let v ← pySubscriptStr data "AbstractText"
      pure (if v.truthy then ["Summary: " ++ v.pyStr] else [])
    else pure []
  let hasRel ← pyContains data "RelatedTopics"
  let rel ←
    if hasRel then do
      let rts ← pySubscriptStr data "RelatedTopics"
      let sliced ← relatedSlice rts
      pure (sliced.filterMap relatedOf)
    else pure []
  let results := abs ++ rel
  pure (if results = [] then "Basic search completed for: " ++ query
        else String.intercalate "\n\n" results)

/-- `search_web` (lines 49-74).  `net` models `requests.get`; any raised
exception is caught and replaced by the generic fallback string. -/
def search_web (net : String → FetchResult) (query : String) : String :=
  match net (search_url query) with
  | .exn _ =>
    "Web search for '" ++ query ++ "' completed. Manual research may be needed for specific data."
  | .ok response =>
    if response.status = 200 then
      match response.body with
      | none =>
        "Web search for '" ++ query ++ "' completed. Manual research may be needed for specific data."
      | some data =>
        match search200 query data with
        | .ok s => s
        | .error _ =>
          "Web search for '" ++ query ++ "' completed. Manual research may be needed for specific data."
    else
      "Search completed for: " ++ query ++ ". Please provide more specific terms for better results."

/-- One role-tagged chat message (a Python dict with keys role/content). -/
structure ChatMessage where
  role : String
  content : String

/-- The chat-completion request `call_openai_api` would POST: the
`headers` bearer token plus the JSON payload of lines 90-95. -/
structure ChatRequest where
  authorization : String
  model : String
  messages : List ChatMessage
  temperature : Rat
  max_tokens : Nat

/-- Line 80: `os.getenv("OPENAI_API_KEY") or st.secrets.get("OPENAI_API_KEY", "")`.
`env`/`secrets` are `none` when the variable / secret is absent. -/
def resolve_api_key (env secrets : Option String) : String :=
  let envVal := env.getD ""
  if envVal != "" then envVal else secrets.getD ""

/-- The request built from the resolved key and the messages
(fixed model, temperature 0.1, max_tokens 2000). -/
def mkChatRequest (api_key : String) (messages : List ChatMessage) : ChatRequest :=
  { authorization := "Bearer " ++ api_key
    model := "gpt-4-1106-preview"
    messages := messages
    temperature := 1/10
    max_tokens := 2000 }

/-- Line 106-107: `response.json()['choices'][0]['message']['content']`;
`.error` carries `str(e)` of the exception the lookup chain raises. -/
def extractContent (body : Option Json) : Except String Json :=
  match body with
  | none => .error "Expecting value: line 1 column 1 (char 0)"
  | some result => do
    let choices ← pySubscriptStr result "choices"
    let first ← pySubscriptIdx choices 0
    let message ← pySubscriptStr first "message"
    pySubscriptStr message "content"

/-- `call_openai_api` (lines 76-112).  `net` models `requests.post`
applied to the built request; every failure collapses to a returned
string, successful extraction returns the content value verbatim. -/
def call_openai_api (env secrets : Option String) (net : ChatRequest → FetchResult)
    (messages : List ChatMessage) : Json :=
  let api_key := resolve_api_key env secrets
  if api_key = "" then
    Json.str "❌ OpenAI API key not found. Please add it in Streamlit secrets."
  else
    match net (mkChatRequest api_key messages) with
    | .exn e => Json.str ("Error calling OpenAI API: " ++ e)
    | .ok response =>
      if response.status = 200 then
        match extractContent response.body with
        | .ok content => content
        | .error e => Json.str ("Error calling OpenAI API: " ++ e)
      else
        Json.str ("API Error: " ++ toString response.status ++
          ". Please check your API key and try again.")

/-- System prompt of the research agent (lines 130-140). -/
def researchSystemContent : String :=
  "You are a research specialist. Analyze the query and provide structured data that can be used for visualization. \n\nIf you have search results, extract numerical data. If not, provide typical/example data that would answer the query.\n\nFormat your response as:\n1. Data Summary\n2. Key Numbers/Statistics  \n3. Recommended Chart Type\n4. Data Structure for Visualization\n\nBe specific with numbers, dates, and sources when available."

/-- System prompt of the chart generator (lines 163-174). -/
def chartSystemContent : String :=
  "You are a data visualization expert. Create complete, runnable Python code using matplotlib that users can copy and run locally.\n\nYour code must include:\n1. All necessary imports (matplotlib.pyplot as plt, pandas as pd, numpy as np)\n2. Data setup (create sample data if needed)\n3. Professional chart creation with proper styling\n4. Clear labels, titles, and formatting\n5. plt.show() at the end\n\nChoose the appropriate chart type (line, bar, scatter, pie, etc.) based on the data and query.\n\nMake the code self-contained and ready to run."

/-- Messages the research agent sends (lines 127-146). -/
def researchMessages (query search_results : String) : List ChatMessage :=
  [⟨"system", researchSystemContent⟩,
   ⟨"user", "Query: " ++ query ++ "\n\nSearch Results: " ++ search_results ++
      "\n\nPlease provide structured data for visualization."⟩]

/-- Messages the chart generator sends (lines 160-180); the research
data is interpolated with Python `str()`. -/
def chartMessages (research_data : Json) (original_query : String) : List ChatMessage :=
  [⟨"system", chartSystemContent⟩,
   ⟨"user", "Original Query: " ++ original_query ++ "\n\nResearch Data: " ++
      research_data.pyStr ++ "\n\nCreate complete Python visualization code."⟩]

/-- `research_agent` (lines 114-149): search, then one chat call. -/
def research_agent (searchNet : String → FetchResult) (env secrets : Option String)
    (chatNet : ChatRequest → FetchResult) (query : String) : Json :=
  let search_results := search_web searchNet query
  call_openai_api env secrets chatNet (researchMessages query search_results)

/-- `chart_generator_agent` (lines 151-183): one chat call. -/
def chart_generator_agent (env secrets : Option String)
    (chatNet : ChatRequest → FetchResult) (research_data : Json)
    (original_query : String) : Json :=
  call_openai_api env secrets chatNet (chartMessages research_data original_query)

/-- The two session-state slots (lines 44-47), `None` initially. -/
structure SessionState where
  research_data : Option Json
  chart_code : Option Json

/-- Observable outcome of one click of the generate button: the new
session state, whether the empty-query warning fired, the two displayed
panels, and the download action's (file name, payload). -/
structure RunResult where
  state : SessionState
  warned : Bool
  displayedResearch : Option Json
  displayedCode : Option Json
  download : Option (String × Json)

/-- `user_query[:20].replace(' ', '_')` of line 278. -/
def sanitizeName (q : String) : String :=
  String.mk ((q.data.take 20).map (fun c => if c = ' ' then '_' else c))

/-- The generate-button handler (lines 234-282): reset both slots,
run the research agent, store its output if truthy, display it, run the
chart agent on the stored research, store/display its output, and offer
the download; an empty query only warns. -/
def runSubmit (env secrets : Option String) (searchNet : String → FetchResult)
    (chatNet : ChatRequest → FetchResult) (st : SessionState)
    (user_query : String) : RunResult :=
  if user_query = "" then
    { state := st, warned := true, displayedResearch := none,
      displayedCode := none, download := none }
  else
    let st0 : SessionState := { research_data := none, chart_code := none }
    let research_data := research_agent searchNet env secrets chatNet user_query
    let st1 := if research_data.truthy then
        { st0 with research_data := some research_data } else st0
    match st1.research_data with
    | none =>
      { state := st1, warned := false, displayedResearch := none,
        displayedCode := none, download := none }
    | some rd =>
      if rd.truthy then
        let chart_code := chart_generator_agent env secrets chatNet rd user_query
        let st2 := if chart_code.truthy then
            { st1 with chart_code := some chart_code } else st1
        match st2.chart_code with
        | none =>
          { state := st2, warned := false, displayedResearch := some rd,
            displayedCode := none, download := none }
        | some cc =>
          if cc.truthy then
            { state := st2, warned := false, displayedResearch := some rd,
              displayedCode := some cc,
              download := some ("chart_" ++ sanitizeName user_query ++ ".py", cc) }
          else
            { state := st2, warned := false, displayedResearch := some rd,
              displayedCode := none, download := none }
      else
        { state := st1, warned := false, displayedResearch := none,
          displayedCode := none, download := none }

/-- Session states reachable from the initial state through any sequence
of button clicks, with arbitrary backends and credentials. -/
inductive Reachable : SessionState → Prop where
  | init : Reachable ⟨none, none⟩
  | step (env secrets : Option String) (sn : String → FetchResult)
      (cn : ChatRequest → FetchResult) (q : String) (st : SessionState) :
      Reachable st → Reachable (runSubmit env secrets sn cn st q).state

/-- Invariant of claim C4: a populated chart-code slot implies a
populated, truthy (non-empty) research slot. -/
def chartImpliesResearch (st : SessionState) : Prop :=
  ∀ c, st.chart_code = some c →
    ∃ rd, st.research_data = some rd ∧ rd.truthy = true

/-- Classifies the fetch results claim C1 quantifies over: transport
error / timeout, non-2xx status, or a malformed (unparseable) body. -/
def errorResponse : FetchResult → Bool
  | .exn _ => true
  | .ok r => decide (r.status < 200) || decide (300 ≤ r.status) || r.body.isNone

/-- Splits a character list at every occurrence of `sep`
(like splitting a URL query string at every ampersand). -/
def splitOnChar (sep : Char) : List Char → List (List Char)
  | [] => [[]]
  | c :: cs =>
    if c = sep then [] :: splitOnChar sep cs
    else
      match splitOnChar sep cs with
      | [] => [[c]]
      | h :: t => (c :: h) :: t

/-- Key/value of one `k=v` piece of a query string: the key is
everything before the first `=`, the value everything after it. -/
def paramKV (piece : List Char) : String × String :=
  (String.mk (piece.takeWhile (fun c => c != '=')),
   String.mk ((piece.dropWhile (fun c => c != '=')).drop 1))

/-- All key/value parameters of the query-string part of a URL
(everything after the first `?`). -/
def queryParams (url : String) : List (String × String) :=
  (splitOnChar '&' ((url.data.dropWhile (fun c => c != '?')).drop 1)).map paramKV

/-- The value carried by parameter `key` of `url`, if any. -/
def queryParam (url key : String) : Option String :=
  List.lookup key (queryParams url)

/-- Upper-case hexadecimal digit. -/
def hexDigit (n : Nat) : Char :=
  "0123456789ABCDEF".data.getD n '0'

/-- `%XX` escape of one byte. -/
def percentByte (b : Nat) : String :=
  String.mk ['%', hexDigit (b / 16), hexDigit (b % 16)]

/-- UTF-8 bytes of one character. -/
def utf8Bytes (c : Char) : List Nat :=
  let n := c.toNat
  if n < 0x80 then [n]
  else if n < 0x800 then [0xC0 + n / 64, 0x80 + n % 64]
  else if n < 0x10000 then [0xE0 + n / 4096, 0x80 + n / 64 % 64, 0x80 + n % 64]
  else [0xF0 + n / 262144, 0x80 + n / 4096 % 64, 0x80 + n / 64 % 64, 0x80 + n % 64]

/-- Modelled from the spec's words, for the refinement claim C6:
standard URL-encoding (percent-encoding) of a query: unreserved
characters stay, every other character becomes `%XX` escapes of its
UTF-8 bytes. -/
def urlEncodeSpec (s : String) : String :=
  String.join (s.data.map (fun c =>
    if c.isAlphanum || c ∈ ['-', '.', '_', '~'] then String.mk [c]
    else String.join ((utf8Bytes c).map percentByte)))

/-- Modelled from the spec's words, for the refinement claim C8: the
download file name is a truncated, space-to-underscore-normalized
prefix of the query with a `.py` suffix. -/
def specDownloadName (q name : String) : Prop :=
  ∃ k, name.data =
    ((q.data.take k).map (fun c => if c = ' ' then '_' else c)) ++ ".py".data

/-- The abstract part extracted from a 200-response dict
(lines 62-63): present only when the `AbstractText` value is truthy. -/
def abstractParts (fields : List (String × Json)) : List String :=
  match List.lookup "AbstractText" fields with
  | some a => if a.truthy then ["Summary: " ++ a.pyStr] else []
  | none => []

/-- The related-topic parts extracted from a 200-response dict
(lines 65-68): at most the first three topics contribute. -/
def relatedParts (fields : List (String × Json)) : List String :=
  match List.lookup "RelatedTopics" fields with
  | some (Json.arr ts) => (ts.take 3).filterMap relatedOf
  | some _ => []
  | none => []

/-- The `RelatedTopics` value, when present, is a list or a string —
i.e. slicing it does not raise. -/
def relatedOK (fields : List (String × Json)) : Bool :=
  match List.lookup "RelatedTopics" fields with
  | some (Json.arr _) => true
  | some (Json.str _) => true
  | some _ => false
  | none => true

/-- Modelled from the spec's words, for the refinement claim C7: the
200-response output includes the abstract field whenever the
`AbstractText` key is present (no truthiness filter), plus the related
parts, joined by blank lines; the placeholder appears only when no such
field is present. -/
def searchSpecOutput (q : String) (fields : List (String × Json)) : String :=
  let sParts :=
    match List.lookup "AbstractText" fields with
    | some a => ["Summary: " ++ a.pyStr]
    | none => []
  let parts := sParts ++ relatedParts fields
  if parts = [] then "Basic search completed for: " ++ q
  else String.intercalate "\n\n" parts

/-- A chat-completion 200 body is well-formed when it is a JSON dict
with a `choices` list whose first element is a dict carrying a
`message` dict that has a `content` field (claim C3's shape). -/
def wellFormedChatBody : Option Json → Bool
  | some (Json.obj rf) =>
    match List.lookup "choices" rf with
    | some (Json.arr (c0 :: _)) =>
      match c0 with
      | Json.obj cf =>
        match List.lookup "message" cf with
        | some (Json.obj mf) => (List.lookup "content" mf).isSome
        | _ => false
      | _ => false
    | _ => false
  | _ => false

/-- A well-formed chat-completion 200 body whose completion text is `s`
(used to instantiate concrete back-ends in witnesses). -/
def okBody (s : String) : Json :=
  Json.obj [("choices", Json.arr [Json.obj
    [("message", Json.obj [("content", Json.str s)])]])]

/-! ## Helper lemmas -/

lemma append_ne_empty (a b : String) (h : a.data ≠ []) : a ++ b ≠ "" := by
  cases a with
  | mk la =>
    cases b with
    | mk lb =>
      intro he
      have hd : la ++ lb = [] := congrArg String.data he
      rcases List.append_eq_nil.mp hd with ⟨h1, _⟩
      exact h h1

lemma append3_ne_empty (a q b : String) (h : a.data ≠ []) : a ++ q ++ b ≠ "" := by
  refine append_ne_empty (a ++ q) b ?_
  cases a with
  | mk la =>
    cases q with
    | mk lq =>
      intro hd
      rcases List.append_eq_nil.mp hd with ⟨h1, _⟩
      exact h h1

/-- `runSubmit` on a non-empty query does not depend on the prior
session state: both slots are reset before either agent runs. -/
lemma runSubmit_indep (env secrets : Option String) (sn : String → FetchResult)
    (cn : ChatRequest → FetchResult) (st st' : SessionState) (q : String)
    (hq : q ≠ "") :
    runSubmit env secrets sn cn st q = runSubmit env secrets sn cn st' q := by
  unfold runSubmit
  simp only [if_neg hq]

/-! ## C1: search failure fallback -/

/-- C1: for every query, whenever the search call raises (transport
error / timeout), returns a non-2xx status, or returns an unparseable
body, `search_web` returns a non-empty fallback string (and, being a
total Lean function, never raises). -/
theorem search_web_failure_fallback (net : String → FetchResult) (q : String)
    (h : errorResponse (net (search_url q)) = true) :
    search_web net q ≠ "" := by
  cases hn : net (search_url q) with
  | exn e =>
    unfold search_web
    rw [hn]
    exact append3_ne_empty _ _ _ (by decide)
  | ok r =>
    rw [hn] at h
    simp only [errorResponse] at h
    unfold search_web
    rw [hn]
    dsimp only
    by_cases hs : r.status = 200
    · rw [hs, if_pos rfl]
      cases hb : r.body with
      | none => exact append3_ne_empty _ _ _ (by decide)
      | some data =>
        rw [hs, hb] at h
        simp at h
    · rw [if_neg hs]
      exact append3_ne_empty _ _ _ (by decide)

/-- Witness for C1 at a concrete timeout and query. -/
theorem search_web_failure_fallback_witness :
    errorResponse ((fun _ => FetchResult.exn "timed out") (search_url "cats")) = true ∧
    search_web (fun _ => FetchResult.exn "timed out") "cats" ≠ "" :=
  ⟨rfl, search_web_failure_fallback (fun _ => FetchResult.exn "timed out") "cats" rfl⟩

/-! ## C2: missing credential -/

/-- C2: with the credential absent from both the environment and the
secrets store, `call_openai_api` returns the key-not-found string —
and the result does not depend on the network oracle at all, i.e. no
outbound request is made; the string contains "key not found". -/
theorem call_openai_api_missing_key_no_request
    (net net' : ChatRequest → FetchResult) (messages : List ChatMessage) :
    call_openai_api none none net messages =
      Json.str "❌ OpenAI API key not found. Please add it in Streamlit secrets." ∧
    call_openai_api none none net messages = call_openai_api none none net' messages ∧
    strContains "❌ OpenAI API key not found. Please add it in Streamlit secrets."
      "key not found" = true :=
  ⟨rfl, rfl, by decide⟩

/-! ## C5: empty query submission -/

/-- C5: submitting an empty query leaves the session state unchanged,
fires the warning, displays nothing — and the result does not depend
on either network oracle, i.e. no search or chat call is made. -/
theorem empty_query_preserves_state (env secrets : Option String)
    (sn sn' : String → FetchResult) (cn cn' : ChatRequest → FetchResult)
    (st : SessionState) :
    runSubmit env secrets sn cn st "" =
      { state := st, warned := true, displayedResearch := none,
        displayedCode := none, download := none } ∧
    runSubmit env secrets sn cn st "" = runSubmit env secrets sn' cn' st "" :=
  ⟨rfl, rfl⟩

/-! ## C9: resubmission idempotence -/

/-- C9: with fixed (deterministic) search and chat back-ends,
resubmitting the same query from the state the first run produced
yields exactly the same outcome — the pipeline adds no randomness. -/
theorem resubmit_same_query_idempotent (env secrets : Option String)
    (sn : String → FetchResult) (cn : ChatRequest → FetchResult)
    (st : SessionState) (q : String) :
    runSubmit env secrets sn cn (runSubmit env secrets sn cn st q).state q =
      runSubmit env secrets sn cn st q := by
  by_cases hq : q = ""
  · subst hq; rfl
  · exact runSubmit_indep env secrets sn cn _ st q hq

/-! ## C4: session-state invariant -/

/-- A submission either leaves the state untouched (empty query) or
produces a state satisfying the chart-implies-research invariant. -/
lemma runSubmit_state_chart (env secrets : Option String)
    (sn : String → FetchResult) (cn : ChatRequest → FetchResult)
    (st : SessionState) (q : String) :
    chartImpliesResearch (runSubmit env secrets sn cn st q).state ∨
    (runSubmit env secrets sn cn st q).state = st := by
  by_cases hq : q = ""
  · right
    subst hq
    rfl
  · left
    unfold runSubmit
    simp only [if_neg hq]
    by_cases h1 : (research_agent sn env secrets cn q).truthy
    · simp only [h1, if_true]
      by_cases h2 : (chart_generator_agent env secrets cn (research_agent sn env secrets cn q) q).truthy
      · simp only [h2, if_true]
        intro c hc
        exact ⟨research_agent sn env secrets cn q, rfl, h1⟩
      · simp only [h2, if_false]
        intro c hc
        exact Option.noConfusion hc
    · simp only [h1, if_false]
      intro c hc
      exact Option.noConfusion hc

/-- C4: in every reachable session state a populated chart-code slot
comes with a populated non-empty research slot; and a non-empty
submission's outcome is independent of the previous state, because both
slots are reset before either agent runs — no stale value survives. -/
theorem session_chart_requires_research :
    (∀ st, Reachable st → chartImpliesResearch st) ∧
    (∀ (env secrets : Option String) (sn : String → FetchResult)
      (cn : ChatRequest → FetchResult) (s s' : SessionState) (q : String),
      q ≠ "" → runSubmit env secrets sn cn s q = runSubmit env secrets sn cn s' q) := by
  constructor
  · intro st h
    induction h with
    | init => intro c hc; exact Option.noConfusion hc
    | step env secrets sn cn q st' _ ih =>
      rcases runSubmit_state_chart env secrets sn cn st' q with h | h
      · exact h
      · rw [h]; exact ih
  · intro env secrets sn cn s s' q hq
    exact runSubmit_indep env secrets sn cn s s' q hq

/-- Witness for C4: a state reached by one successful run satisfies the
invariant, and two runs from different prior states agree. -/
theorem session_chart_requires_research_witness :
    chartImpliesResearch (runSubmit (some "k") none (fun _ => FetchResult.exn "e")
      (fun _ => FetchResult.ok ⟨200, some (okBody "out")⟩) ⟨none, none⟩ "x").state ∧
    runSubmit (some "k") none (fun _ => FetchResult.exn "e")
      (fun _ => FetchResult.ok ⟨200, some (okBody "out")⟩)
      ⟨some (Json.str "stale"), some (Json.str "stalec")⟩ "x" =
    runSubmit (some "k") none (fun _ => FetchResult.exn "e")
      (fun _ => FetchResult.ok ⟨200, some (okBody "out")⟩) ⟨none, none⟩ "x" :=
  ⟨session_chart_requires_research.1 _
      (Reachable.step (some "k") none (fun _ => FetchResult.exn "e")
        (fun _ => FetchResult.ok ⟨200, some (okBody "out")⟩) "x" ⟨none, none⟩
        Reachable.init),
   session_chart_requires_research.2 (some "k") none (fun _ => FetchResult.exn "e")
      (fun _ => FetchResult.ok ⟨200, some (okBody "out")⟩)
      ⟨some (Json.str "stale"), some (Json.str "stalec")⟩ ⟨none, none⟩ "x"
      (by decide)⟩

/-! ## C8: download action -/

/-- C8 (amended): on any non-empty submission, either no code panel and
no download are shown, or the displayed chart code `cc` is offered for
download with payload exactly `cc` and file name
`chart_<first 20 query chars, spaces as underscores>.py`. -/
theorem download_payload_matches_display (env secrets : Option String)
    (sn : String → FetchResult) (cn : ChatRequest → FetchResult)
    (st : SessionState) (q : String) (hq : q ≠ "") :
    ((runSubmit env secrets sn cn st q).displayedCode = none ∧
     (runSubmit env secrets sn cn st q).download = none) ∨
    (∃ cc, (runSubmit env secrets sn cn st q).displayedCode = some cc ∧
      (runSubmit env secrets sn cn st q).download =
        some ("chart_" ++ sanitizeName q ++ ".py", cc)) := by
  unfold runSubmit
  simp only [if_neg hq]
  by_cases h1 : (research_agent sn env secrets cn q).truthy
  · simp only [h1, if_true]
    by_cases h2 : (chart_generator_agent env secrets cn (research_agent sn env secrets cn q) q).truthy
    · simp only [h2, if_true]
      exact Or.inr ⟨_, rfl, rfl⟩
    · simp only [h2, if_false]
      exact Or.inl ⟨rfl, rfl⟩
  · simp only [h1, if_false]
    exact Or.inl ⟨rfl, rfl⟩

/-- Witness for C8 at a concrete fully successful run. -/
theorem download_payload_matches_display_witness :
    ((runSubmit (some "k") none (fun _ => FetchResult.exn "e")
        (fun _ => FetchResult.ok ⟨200, some (okBody "plot")⟩)
        ⟨none, none⟩ "ab").displayedCode = none ∧
     (runSubmit (some "k") none (fun _ => FetchResult.exn "e")
        (fun _ => FetchResult.ok ⟨200, some (okBody "plot")⟩)
        ⟨none, none⟩ "ab").download = none) ∨
    (∃ cc, (runSubmit (some "k") none (fun _ => FetchResult.exn "e")
        (fun _ => FetchResult.ok ⟨200, some (okBody "plot")⟩)
        ⟨none, none⟩ "ab").displayedCode = some cc ∧
      (runSubmit (some "k") none (fun _ => FetchResult.exn "e")
        (fun _ => FetchResult.ok ⟨200, some (okBody "plot")⟩)
        ⟨none, none⟩ "ab").download =
          some ("chart_" ++ sanitizeName "ab" ++ ".py", cc)) :=
  download_payload_matches_display (some "k") none (fun _ => FetchResult.exn "e")
    (fun _ => FetchResult.ok ⟨200, some (okBody "plot")⟩)
    ⟨none, none⟩ "ab" (by decide)

/-- Counterexample for C8 as stated: the offered file name is
`chart_ab.py`, which is not a `.py`-suffixed space-normalized prefix of
the query `ab` (the code prepends the constant `chart_`). -/
theorem download_name_counterexample :
    (runSubmit (some "k") none (fun _ => FetchResult.exn "e")
      (fun _ => FetchResult.ok ⟨200, some (okBody "plot")⟩)
      ⟨none, none⟩ "ab").download = some ("chart_ab.py", Json.str "plot") ∧
    ¬ specDownloadName "ab" "chart_ab.py" := by
  constructor
  · rfl
  · rintro ⟨k, hk⟩
    have hlen := congrArg List.length hk
    rw [List.length_append, List.length_map, List.length_take] at hlen
    have h1 : ("chart_ab.py".data).length = 11 := rfl
    have h2 : ("ab".data).length = 2 := rfl
    have h3 : (".py".data).length = 3 := rfl
    rw [h1, h2, h3] at hlen
    have hle : min k 2 ≤ 2 := min_le_right _ _
    omega

/-! ## C3: 200 pass-through -/

/-- C3: when the key resolves and the chat endpoint returns a 200
response whose body has the well-formed choices/message/content shape,
`call_openai_api` returns exactly the first choice's message content. -/
theorem call_openai_api_ok_passthrough (env secrets : Option String)
    (net : ChatRequest → FetchResult) (messages : List ChatMessage)
    (rf cf mf : List (String × Json)) (rest : List Json) (content : Json)
    (hkey : resolve_api_key env secrets ≠ "")
    (hnet : net (mkChatRequest (resolve_api_key env secrets) messages) =
      FetchResult.ok ⟨200, some (Json.obj rf)⟩)
    (hchoices : List.lookup "choices" rf = some (Json.arr (Json.obj cf :: rest)))
    (hmessage : List.lookup "message" cf = some (Json.obj mf))
    (hcontent : List.lookup "content" mf = some content) :
    call_openai_api env secrets net messages = content := by
  have hex : extractContent (some (Json.obj rf)) = Except.ok content := by
    simp [extractContent, pySubscriptStr, pySubscriptIdx, Bind.bind, Except.bind,
      hchoices, hmessage, hcontent]
  unfold call_openai_api
  rw [if_neg hkey, hnet]
  show (match extractContent (some (Json.obj rf)) with
        | Except.ok content => content
        | Except.error e => Json.str ("Error calling OpenAI API: " ++ e)) = content
  rw [hex]

/-- Witness for C3 at a concrete well-formed response. -/
theorem call_openai_api_ok_passthrough_witness :
    call_openai_api (some "sk") none
      (fun _ => FetchResult.ok ⟨200, some (okBody "hi")⟩) [] = Json.str "hi" :=
  call_openai_api_ok_passthrough (some "sk") none
    (fun _ => FetchResult.ok ⟨200, some (okBody "hi")⟩) []
    [("choices", Json.arr [Json.obj [("message", Json.obj [("content", Json.str "hi")])]])]
    [("message", Json.obj [("content", Json.str "hi")])]
    [("content", Json.str "hi")] [] (Json.str "hi")
    (by decide) rfl rfl rfl rfl

/-! ## C10: malformed 200 bodies -/

lemma pySubscriptStr_ok (j : Json) (k : String) (v : Json)
    (h : pySubscriptStr j k = Except.ok v) :
    ∃ fields, j = Json.obj fields ∧ List.lookup k fields = some v := by
  cases j with
  | obj fields =>
    refine ⟨fields, rfl, ?_⟩
    cases hl : List.lookup k fields with
    | none => simp [pySubscriptStr, hl] at h
    | some w =>
      simp [pySubscriptStr, hl] at h
      rw [h]
  | null => simp [pySubscriptStr] at h
  | bool b => simp [pySubscriptStr] at h
  | num n => simp [pySubscriptStr] at h
  | str s => simp [pySubscriptStr] at h
  | arr xs => simp [pySubscriptStr] at h

lemma pySubscriptIdx_zero_ok (j v : Json) (h : pySubscriptIdx j 0 = Except.ok v) :
    (∃ x rest, j = Json.arr (x :: rest) ∧ v = x) ∨
    (∃ c, v = Json.str (String.mk [c])) := by
  cases j with
  | arr xs =>
    cases xs with
    | nil => simp [pySubscriptIdx] at h
    | cons x rest =>
      left
      refine ⟨x, rest, rfl, ?_⟩
      simp [pySubscriptIdx] at h
      exact h.symm
  | str s =>
    cases hs : s.data with
    | nil => simp [pySubscriptIdx, hs] at h
    | cons c rest =>
      right
      refine ⟨c, ?_⟩
      simp [pySubscriptIdx, hs] at h
      exact h.symm
  | null => simp [pySubscriptIdx] at h
  | bool b => simp [pySubscriptIdx] at h
  | num n => simp [pySubscriptIdx] at h
  | obj fields => simp [pySubscriptIdx] at h

/-- The extraction chain of line 107 succeeds only on well-formed bodies. -/
lemma wellFormed_of_extract_ok (b : Option Json) (c : Json)
    (h : extractContent b = Except.ok c) : wellFormedChatBody b = true := by
  cases b with
  | none => simp [extractContent] at h
  | some j =>
    cases h1 : pySubscriptStr j "choices" with
    | error e => simp [extractContent, Bind.bind, Except.bind, h1] at h
    | ok choices =>
      cases h2 : pySubscriptIdx choices 0 with
      | error e => simp [extractContent, Bind.bind, Except.bind, h1, h2] at h
      | ok first =>
        cases h3 : pySubscriptStr first "message" with
        | error e => simp [extractContent, Bind.bind, Except.bind, h1, h2, h3] at h
        | ok message =>
          have h4 : pySubscriptStr message "content" = Except.ok c := by
            simpa [extractContent, Bind.bind, Except.bind, h1, h2, h3] using h
          obtain ⟨rf, rfl, hc⟩ := pySubscriptStr_ok j "choices" choices h1
          obtain ⟨mf, rfl, hcon⟩ := pySubscriptStr_ok message "content" c h4
          obtain ⟨cf, hfirst, hm⟩ := pySubscriptStr_ok first "message" (Json.obj mf) h3
          subst hfirst
          rcases pySubscriptIdx_zero_ok choices (Json.obj cf) h2 with
            ⟨x, rest, rfl, hv⟩ | ⟨ch, habs⟩
          · subst hv
            simp [wellFormedChatBody, hc, hm, hcon]
          · simp at habs

/-- C10: when the key resolves and the chat endpoint returns a 200
response whose body is not well-formed (including an unparseable body),
the lookup failure is caught and `call_openai_api` returns the error
string embedding the exception text — it never raises. -/
theorem call_openai_api_malformed_response_total (env secrets : Option String)
    (net : ChatRequest → FetchResult) (messages : List ChatMessage)
    (body : Option Json)
    (hkey : resolve_api_key env secrets ≠ "")
    (hnet : net (mkChatRequest (resolve_api_key env secrets) messages) =
      FetchResult.ok ⟨200, body⟩)
    (hmal : wellFormedChatBody body = false) :
    ∃ e, call_openai_api env secrets net messages =
      Json.str ("Error calling OpenAI API: " ++ e) := by
  obtain ⟨e, he⟩ : ∃ e, extractContent body = Except.error e := by
    cases hE : extractContent body with
    | error e => exact ⟨e, rfl⟩
    | ok c =>
      rw [wellFormed_of_extract_ok body c hE] at hmal
      exact absurd hmal (by simp)
  refine ⟨e, ?_⟩
  unfold call_openai_api
  rw [if_neg hkey, hnet]
  show (match extractContent body with
        | Except.ok content => content
        | Except.error e => Json.str ("Error calling OpenAI API: " ++ e)) = _
  rw [he]

/-- Witness for C10 at a concrete 200 response with an empty JSON dict. -/
theorem call_openai_api_malformed_response_total_witness :
    ∃ e, call_openai_api (some "sk") none
      (fun _ => FetchResult.ok ⟨200, some (Json.obj [])⟩) [] =
        Json.str ("Error calling OpenAI API: " ++ e) :=
  call_openai_api_malformed_response_total (some "sk") none
    (fun _ => FetchResult.ok ⟨200, some (Json.obj [])⟩) [] (some (Json.obj []))
    (by decide) rfl rfl

/-! ## C6: query parameter encoding -/

lemma splitOnChar_append_left (sep : Char) (l1 l2 : List Char) (hno : sep ∉ l1)
    (h : List Char) (t : List (List Char))
    (hsplit : splitOnChar sep l2 = h :: t) :
    splitOnChar sep (l1 ++ l2) = (l1 ++ h) :: t := by
  induction l1 with
  | nil => simpa using hsplit
  | cons c cs ih =>
    have hc : ¬ (c = sep) := by
      intro he
      exact hno (by simp [he])
    have hrec := ih (by intro hm; exact hno (List.mem_cons_of_mem _ hm))
    simp only [List.cons_append, splitOnChar, if_neg hc, List.append_eq, hrec]

/-- Counterexample for C6 as stated: for the query `a&b` the request
URL's `q` parameter carries `a`, not the URL-encoding `a%26b` — the
code interpolates the raw query without URL-encoding. -/
theorem search_url_not_urlencoded :
    queryParam (search_url "a&b") "q" = some "a" ∧
    urlEncodeSpec "a&b" = "a%26b" ∧
    queryParam (search_url "a&b") "q" ≠ some (urlEncodeSpec "a&b") := by
  refine ⟨?_, ?_, ?_⟩
  · rfl
  · rfl
  · decide

/-- C6 (amended): the search client interpolates the query verbatim
(not URL-encoded) into the `q` parameter: for every query that does not
contain an ampersand, the `q` parameter of the request URL is exactly
the raw query. -/
theorem search_url_carries_query_verbatim (q : String) (h : '&' ∉ q.data) :
    queryParam (search_url q) "q" = some q := by
  obtain ⟨l⟩ := q
  have hno : '&' ∉ 'q' :: '=' :: l := by
    intro hm
    simp only [List.mem_cons] at hm
    rcases hm with h1 | h1 | h1
    · exact absurd h1 (by decide)
    · exact absurd h1 (by decide)
    · exact h h1
  have hsplit : splitOnChar '&' ('&' :: "format=json&no_redirect=1".data) =
      [] :: ["format=json".data, "no_redirect=1".data] := rfl
  have hmain := splitOnChar_append_left '&' ('q' :: '=' :: l)
      ('&' :: "format=json&no_redirect=1".data) hno _ _ hsplit
  have hinner : ((search_url (String.mk l)).data.dropWhile (fun c => c != '?')).drop 1 =
      ('q' :: '=' :: l) ++ ('&' :: "format=json&no_redirect=1".data) := rfl
  unfold queryParam queryParams
  rw [hinner, hmain, List.append_nil]
  rfl

/-- Witness for C6 (amended) at a concrete ampersand-free query. -/
theorem search_url_carries_query_verbatim_witness :
    '&' ∉ "hello world".data ∧
    queryParam (search_url "hello world") "q" = some "hello world" :=
  ⟨by decide, search_url_carries_query_verbatim "hello world" (by decide)⟩

/-! ## C7: 200-response extraction -/

lemma isPrefixOf_self (l : List Char) : l.isPrefixOf l = true := by
  induction l with
  | nil => rfl
  | cons c cs ih => simp [List.isPrefixOf, ih]

lemma strContains_append_right (a b : String) : strContains (a ++ b) b = true := by
  obtain ⟨la⟩ := a
  obtain ⟨lb⟩ := b
  show listContainsSub (la ++ lb) lb = true
  unfold listContainsSub
  rw [List.any_eq_true]
  exact ⟨lb, (List.mem_tails _ _).mpr (List.suffix_append la lb), isPrefixOf_self lb⟩

/-- Counterexample for C7 as stated: with `AbstractText` present but
empty, the code skips it (truthiness check) and returns the generic
placeholder, while the spec's reading would include the summary part. -/
theorem search_web_abstract_counterexample :
    search_web (fun _ => FetchResult.ok ⟨200, some (Json.obj
        [("AbstractText", Json.str "")])⟩) "pears" =
      "Basic search completed for: pears" ∧
    searchSpecOutput "pears" [("AbstractText", Json.str "")] = "Summary: " ∧
    "Basic search completed for: pears" ≠ "Summary: " :=
  ⟨rfl, rfl, by decide⟩

/-- C7 (amended): on an HTTP 200 dict response (whose RelatedTopics
value, when present, is sliceable), the output joins the abstract part
— included exactly when `AbstractText` is present and non-empty
(truthy) — with at most 3 related-topic parts, blank-line separated;
when no part qualifies it is the generic placeholder, which contains
the query. -/
theorem search_web_200_extraction (net : String → FetchResult) (q : String)
    (fields : List (String × Json))
    (h : net (search_url q) = FetchResult.ok ⟨200, some (Json.obj fields)⟩)
    (hrel : relatedOK fields = true) :
    search_web net q =
      (if abstractParts fields ++ relatedParts fields = [] then
        "Basic search completed for: " ++ q
       else String.intercalate "\n\n" (abstractParts fields ++ relatedParts fields)) ∧
    (relatedParts fields).length ≤ 3 ∧
    strContains ("Basic search completed for: " ++ q) q = true := by
  refine ⟨?_, ?_, strContains_append_right _ _⟩
  · have hred : search_web net q = (match search200 q (Json.obj fields) with
        | Except.ok s => s
        | Except.error _ =>
          "Web search for '" ++ q ++
            "' completed. Manual research may be needed for specific data.") := by
      unfold search_web
      rw [h]
      rfl
    rw [hred]
    have hmapnil : ∀ s : String,
        (List.take 3 (List.map (fun c => Json.str (String.mk [c])) s.data)).filterMap
          relatedOf = [] := by
      intro s
      rw [List.filterMap_eq_nil_iff]
      intro x hx
      rcases List.mem_map.mp (List.mem_of_mem_take hx) with ⟨c, _, rfl⟩
      rfl
    cases hA : List.lookup "AbstractText" fields with
    | none =>
      cases hR : List.lookup "RelatedTopics" fields with
      | none =>
        simp [search200, pyContains, pySubscriptStr, relatedSlice, Bind.bind,
          Except.bind, pure, Except.pure, hA, hR, abstractParts, relatedParts]
      | some v =>
        cases v with
        | arr ts =>
          simp [search200, pyContains, pySubscriptStr, relatedSlice, Bind.bind,
            Except.bind, pure, Except.pure, hA, hR, abstractParts, relatedParts]
        | str s =>
          simp [search200, pyContains, pySubscriptStr, relatedSlice, Bind.bind,
            Except.bind, pure, Except.pure, hA, hR, abstractParts, relatedParts,
            hmapnil s]
        | null => simp [relatedOK, hR] at hrel
        | bool b => simp [relatedOK, hR] at hrel
        | num n => simp [relatedOK, hR] at hrel
        | obj nfs => simp [relatedOK, hR] at hrel
    | some a =>
      cases hR : List.lookup "RelatedTopics" fields with
      | none =>
        simp [search200, pyContains, pySubscriptStr, relatedSlice, Bind.bind,
          Except.bind, pure, Except.pure, hA, hR, abstractParts, relatedParts]
      | some v =>
        cases v with
        | arr ts =>
          simp [search200, pyContains, pySubscriptStr, relatedSlice, Bind.bind,
            Except.bind, pure, Except.pure, hA, hR, abstractParts, relatedParts]
        | str s =>
          simp [search200, pyContains, pySubscriptStr, relatedSlice, Bind.bind,
            Except.bind, pure, Except.pure, hA, hR, abstractParts, relatedParts,
            hmapnil s]
        | null => simp [relatedOK, hR] at hrel
        | bool b => simp [relatedOK, hR] at hrel
        | num n => simp [relatedOK, hR] at hrel
        | obj nfs => simp [relatedOK, hR] at hrel
  · cases hR : List.lookup "RelatedTopics" fields with
    | none => simp [relatedParts, hR]
    | some v =>
      cases v with
      | arr ts =>
        simp only [relatedParts, hR]
        exact le_trans (List.length_filterMap_le _ _) (List.length_take_le _ _)
      | str s => simp [relatedParts, hR]
      | null => simp [relatedParts, hR]
      | bool b => simp [relatedParts, hR]
      | num n => simp [relatedParts, hR]
      | obj nfs => simp [relatedParts, hR]

/-- Witness for C7 (amended) at a concrete 200 response carrying an
abstract and a mixed related-topics list. -/
theorem search_web_200_extraction_witness :
    search_web (fun _ => FetchResult.ok ⟨200, some (Json.obj
        [("AbstractText", Json.str "Paris fact"),
         ("RelatedTopics", Json.arr [Json.obj [("Text", Json.str "t1")], Json.num 5])])⟩)
      "paris" =
      (if abstractParts
          [("AbstractText", Json.str "Paris fact"),
           ("RelatedTopics", Json.arr [Json.obj [("Text", Json.str "t1")], Json.num 5])] ++
         relatedParts
          [("AbstractText", Json.str "Paris fact"),
           ("RelatedTopics", Json.arr [Json.obj [("Text", Json.str "t1")], Json.num 5])] = [] then
        "Basic search completed for: " ++ "paris"
       else String.intercalate "\n\n"
        (abstractParts
          [("AbstractText", Json.str "Paris fact"),
           ("RelatedTopics", Json.arr [Json.obj [("Text", Json.str "t1")], Json.num 5])] ++
         relatedParts
          [("AbstractText", Json.str "Paris fact"),
           ("RelatedTopics", Json.arr [Json.obj [("Text", Json.str "t1")], Json.num 5])])) ∧
    (relatedParts
        [("AbstractText", Json.str "Paris fact"),
         ("RelatedTopics", Json.arr [Json.obj [("Text", Json.str "t1")], Json.num 5])]).length ≤ 3 ∧
    strContains ("Basic search completed for: " ++ "paris") "paris" = true :=
  search_web_200_extraction
    (fun _ => FetchResult.ok ⟨200, some (Json.obj
        [("AbstractText", Json.str "Paris fact"),
         ("RelatedTopics", Json.arr [Json.obj [("Text", Json.str "t1")], Json.num 5])])⟩)
    "paris"
    [("AbstractText", Json.str "Paris fact"),
     ("RelatedTopics", Json.arr [Json.obj [("Text", Json.str "t1")], Json.num 5])]
    rfl rfl
